import Mathlib

/-!
Shallow embedding of `src/bentoml/artifact/pytorch_model_artifact.py`
(class `PytorchModelArtifact`), a validation-and-delegation wrapper that
stores one model object and persists it through torch-compatible pickling.

Modelling choices:

* A Python runtime object is `PyObj`: the name of its Python type (so that
  `type_repr m` renders the way Python prints `type(m)`), whether it is an
  instance of `torch.nn.Module`, and an abstract payload distinguishing
  otherwise identical objects.  Python's `None` is the distinguished object
  `pyNone`; the source initialises `self._model = None`, so the artifact's
  model field holds `pyNone` until a successful `pack` or `load`.
* Importability of the `torch` package is an explicit Boolean parameter
  `torchAvailable` of exactly the operations whose bodies execute
  `import torch`, namely `pack` and `load`.  The bodies of `get` and `save`
  contain no import of the framework, so those functions take no such
  parameter.
* `cloudpickle` together with the filesystem is modelled as a map
  `FS : String → Option PyObj` from file paths to the pickled object stored
  there (`none` means the file does not exist).  `cloudpickle.dump` and
  `cloudpickle.load` are external to this repository and assumed faithful,
  so `save` stores the artifact's current model object at the computed path
  and `load` reads back exactly the stored object.
* A method body that can raise is translated line by line into a function
  returning `PytorchModelArtifact × Option ArtifactError`: the first
  component is the state of `self` when the method returns or when the
  exception escapes.  Each `raise` site returns the state `self` has at that
  program point; in `pack` and `load` every `raise` occurs before the single
  assignment `self._model = model`, so those branches return the entry state.
-/

/-- A Python runtime object, abstracted to what the artifact code inspects:
its type name, whether `isinstance(obj, torch.nn.Module)` holds, and an
opaque payload so that distinct objects of one type stay distinguishable. -/
structure PyObj where
  py_type : String
  is_torch_nn_module : Bool
  payload : Nat
deriving DecidableEq

/-- Python's `None` object, the initial value of the artifact's model field. -/
def pyNone : PyObj := ⟨"NoneType", false, 0⟩

/-- How Python renders `type(m)` inside a formatted message, as in
`"... it is {}".format(type(model))`. -/
def type_repr (m : PyObj) : String := "<class '" ++ m.py_type ++ "'>"

/-- The exceptions the artifact code can raise: the two typed errors from
`bentoml.exceptions` plus the builtin error `open` raises on a missing file. -/
inductive ArtifactError where
  | missingDependencyException (msg : String)
  | invalidArgument (msg : String)
  | fileNotFoundError (path : String)
deriving DecidableEq

/-- The filesystem as seen through `cloudpickle`: each existing file holds
one pickled Python object. -/
abbrev FS := String → Option PyObj

/-- State of a `PytorchModelArtifact` instance: the `name` set by the base
class constructor, the `_file_extension` field, and the `_model` field
(`pyNone` until a model is stored). -/
structure PytorchModelArtifact where
  name : String
  _file_extension : String
  _model : PyObj
deriving DecidableEq

/-- POSIX `os.path.join`, restricted to the two-argument form used by
`_file_path`: if the second component is absolute it wins; otherwise it is
appended, inserting a separator unless the base is empty or already ends in
one.  The checks are spelled on the character lists so that concrete paths
evaluate by reduction. -/
def os_path_join (path b : String) : String :=
  if b.data.head? = some '/' then b
  else if path.data.isEmpty = true ∨ path.data.reverse.head? = some '/' then path ++ b
  else path ++ "/" ++ b

namespace PytorchModelArtifact

/-- Constructor `__init__(self, name, file_extension=".pt")`, with the
extension passed explicitly. -/
def init (name file_extension : String) : PytorchModelArtifact :=
  { name := name, _file_extension := file_extension, _model := pyNone }

/-- Constructor call using the default argument `file_extension=".pt"`. -/
def initDefault (name : String) : PytorchModelArtifact :=
  init name ".pt"

/-- Method `_file_path(self, base_path)`. -/
def _file_path (a : PytorchModelArtifact) (base_path : String) : String :=
  os_path_join base_path (a.name ++ a._file_extension)

/-- Message of the `MissingDependencyException` raised by `pack` and `load`. -/
def missingTorchMsg : String :=
  "torch package is required to use PytorchModelArtifact"

/-- Message of the `InvalidArgument` raised by `pack` on a non-module object. -/
def packOnlyMsg : String :=
  "PytorchModelArtifact can only pack type 'torch.nn.Module'"

/-- Fixed part of the `InvalidArgument` message raised by `load` on a
non-module deserialized object. -/
def loadWrongTypePre : String :=
  "Expecting PytorchModelArtifact loaded object type to be 'torch.nn.Module' but actually it is "

/-- Full `InvalidArgument` message raised by `load`, which appends
`type(model)` to the fixed part. -/
def loadWrongTypeMsg (m : PyObj) : String :=
  loadWrongTypePre ++ type_repr m

/-- Method `pack(self, model)`: import torch (raise
`MissingDependencyException` if unavailable), check
`isinstance(model, torch.nn.Module)` (raise `InvalidArgument` otherwise),
then `self._model = model; return self`. -/
def pack (a : PytorchModelArtifact) (torchAvailable : Bool) (model : PyObj) :
    PytorchModelArtifact × Option ArtifactError :=
  if torchAvailable = false then
    (a, some (ArtifactError.missingDependencyException missingTorchMsg))
  else if model.is_torch_nn_module = false then
    (a, some (ArtifactError.invalidArgument packOnlyMsg))
  else
    ({ a with _model := model }, none)

/-- Method `load(self, path)`: import torch (raise
`MissingDependencyException` if unavailable), unpickle the file at
`self._file_path(path)` (raise `FileNotFoundError` if absent), check
`isinstance(model, torch.nn.Module)` (raise `InvalidArgument` naming the
actual type otherwise), then `return self.pack(model)`. -/
def load (a : PytorchModelArtifact) (torchAvailable : Bool) (fs : FS)
    (path : String) : PytorchModelArtifact × Option ArtifactError :=
  if torchAvailable = false then
    (a, some (ArtifactError.missingDependencyException missingTorchMsg))
  else
    match fs (a._file_path path) with
    | none => (a, some (ArtifactError.fileNotFoundError (a._file_path path)))
    | some m =>
      if m.is_torch_nn_module = false then
        (a, some (ArtifactError.invalidArgument (loadWrongTypeMsg m)))
      else
        pack a torchAvailable m

/-- Method `get(self)`: `return self._model`, with no validation and no
framework import. -/
def get (a : PytorchModelArtifact) : PyObj := a._model

/-- Method `save(self, dst)`:
`cloudpickle.dump(self._model, open(self._file_path(dst), "wb"))`.
It writes the current `_model` object (possibly `pyNone`) at the computed
path, leaves every other file unchanged, performs no presence validation
and no framework import, and raises none of the typed errors. -/
def save (a : PytorchModelArtifact) (fs : FS) (dst : String) : FS :=
  fun p => if p = a._file_path dst then some a._model else fs p

end PytorchModelArtifact

/-- Modelled from the spec: the environment descriptor (`BentoServiceEnv`
from `bentoml.service_env`, whose module is not under `src/`) is a list of
registered pip package names. -/
structure BentoServiceEnv where
  pip_dependencies : List String
deriving DecidableEq

/-- Modelled from the spec: `addDependencyIfMissing(names)` registers each
named package in the descriptor only if not already present. -/
def BentoServiceEnv.add_pip_dependencies_if_missing
    (env : BentoServiceEnv) (names : List String) : BentoServiceEnv :=
  { pip_dependencies :=
      names.foldl (fun acc n => if n ∈ acc then acc else acc ++ [n])
        env.pip_dependencies }

/-- Method `set_dependencies(self, env)`: logs a warning (no state effect
modelled) and calls `env.add_pip_dependencies_if_missing(['torch'])`.  It
never reads or writes the artifact's model field. -/
def PytorchModelArtifact.set_dependencies (_a : PytorchModelArtifact)
    (env : BentoServiceEnv) : BentoServiceEnv :=
  env.add_pip_dependencies_if_missing ["torch"]

/-- Decidable substring test on lists of characters. -/
def listHasSub (s pat : List Char) : Bool :=
  match s with
  | [] => pat.isEmpty
  | c :: t => if (c :: t).take pat.length = pat then true else listHasSub t pat

/-- Decidable substring test on strings, used to state what an error
message mentions. -/
def strHasSub (s pat : String) : Bool :=
  listHasSub s.toList pat.toList

/-- The model-field invariant: whenever the model field is present (not the
initial `pyNone`), it is an instance of `torch.nn.Module`. -/
def validModel (a : PytorchModelArtifact) : Bool :=
  decide (a._model = pyNone) || a._model.is_torch_nn_module

/-- Artifact states reachable from a freshly constructed artifact through
the state-changing operations.  `get`, `save` and `set_dependencies`
return no artifact and assign no field, so they produce no new state. -/
inductive Reachable : PytorchModelArtifact → Prop where
  | start (name file_extension : String) :
      Reachable (PytorchModelArtifact.init name file_extension)
  | stepPack (a : PytorchModelArtifact) (t : Bool) (m : PyObj) :
      Reachable a → Reachable (PytorchModelArtifact.pack a t m).1
  | stepLoad (a : PytorchModelArtifact) (t : Bool) (fs : FS) (p : String) :
      Reachable a → Reachable (PytorchModelArtifact.load a t fs p).1

section Helpers

open PytorchModelArtifact

/-- Concrete non-module object used in witnesses: a Python string. -/
def objStr : PyObj := ⟨"str", false, 7⟩

/-- Concrete module object used in witnesses: an instance of a
`torch.nn.Module` subclass. -/
def objNet : PyObj := ⟨"Net", true, 1⟩

/-- A filesystem holding exactly one pickled object, used in witnesses. -/
def fsWith (p : String) (m : PyObj) : FS :=
  fun q => if q = p then some m else none

/-- The empty filesystem, used in witnesses. -/
def fsEmpty : FS := fun _ => none

theorem listHasSub_append (x y : List Char) : listHasSub (x ++ y) y = true := by
  induction x with
  | nil =>
    cases y with
    | nil => rfl
    | cons c t => simp [listHasSub, List.take_length]
  | cons c xs ih =>
    simp only [List.cons_append, listHasSub]
    split
    · rfl
    · exact ih

theorem strHasSub_append (x y : String) : strHasSub (x ++ y) y = true :=
  listHasSub_append x.data y.data

/-- Successful `pack` characterised. -/
theorem pack_ok (a : PytorchModelArtifact) (m : PyObj)
    (hm : m.is_torch_nn_module = true) :
    pack a true m = ({ a with _model := m }, none) := by
  simp [pack, hm]

/-- Running `pack` never changes the name or extension fields, and on every
exception path it returns the entry state. -/
theorem pack_state (a : PytorchModelArtifact) (t : Bool) (m : PyObj) :
    (pack a t m).1 = a ∨ (pack a t m).2 = none := by
  unfold pack
  rcases t with _ | _
  · exact Or.inl rfl
  · rcases hm : m.is_torch_nn_module with _ | _ <;> simp [hm]

/-- `pack` preserves the model-field invariant. -/
theorem pack_validModel (a : PytorchModelArtifact) (t : Bool) (m : PyObj)
    (h : validModel a = true) : validModel (pack a t m).1 = true := by
  unfold pack
  rcases t with _ | _
  · exact h
  · rcases hm : m.is_torch_nn_module with _ | _
    · simpa [hm] using h
    · simp [hm, validModel]

/-- `load` on every exception path returns the entry state. -/
theorem load_state (a : PytorchModelArtifact) (t : Bool) (fs : FS)
    (p : String) : (load a t fs p).1 = a ∨ (load a t fs p).2 = none := by
  unfold load
  rcases t with _ | _
  · exact Or.inl rfl
  · rcases hf : fs (a._file_path p) with _ | m
    · simp [hf]
    · rcases hm : m.is_torch_nn_module with _ | _
      · simp [hf, hm]
      · simpa [hf, hm] using pack_state a true m

/-- `load` preserves the model-field invariant. -/
theorem load_validModel (a : PytorchModelArtifact) (t : Bool) (fs : FS)
    (p : String) (h : validModel a = true) :
    validModel (load a t fs p).1 = true := by
  unfold load
  rcases t with _ | _
  · exact h
  · rcases hf : fs (a._file_path p) with _ | m
    · simpa [hf] using h
    · rcases hm : m.is_torch_nn_module with _ | _
      · simpa [hf, hm] using h
      · simpa [hf, hm] using pack_validModel a true m h

end Helpers

section Claims

open PytorchModelArtifact

/-- C1: for every object `obj` that is an instance of the expected base
model type `torch.nn.Module`, `pack(obj)` succeeds (raises nothing) and a
subsequent `get()` on the returned artifact yields an object equal to
`obj`.  Such an object can only exist with torch importable, so the
availability flag is `true`. -/
theorem C1_pack_then_get (a : PytorchModelArtifact) (obj : PyObj)
    (h : obj.is_torch_nn_module = true) :
    (pack a true obj).2 = none ∧ (pack a true obj).1.get = obj := by
  simp [pack, PytorchModelArtifact.get, h]

theorem C1_pack_then_get_witness :
    (pack (initDefault "net") true objNet).2 = none ∧
    (pack (initDefault "net") true objNet).1.get = objNet :=
  C1_pack_then_get (initDefault "net") objNet rfl

/-- C2: round trip.  Packing a base-type object into an artifact, saving to
a directory, then loading that directory into a fresh artifact with the
same name and extension repopulates `get()` with an object equal to the
original (the external pickler being modelled as faithful). -/
theorem C2_save_load_round_trip (name ext dir : String) (fs : FS)
    (obj : PyObj) (h : obj.is_torch_nn_module = true) :
    (pack (init name ext) true obj).2 = none ∧
    (load (init name ext) true
        (save (pack (init name ext) true obj).1 fs dir) dir).2 = none ∧
    (load (init name ext) true
        (save (pack (init name ext) true obj).1 fs dir) dir).1.get = obj := by
  have ha : (pack (init name ext) true obj).1 = ⟨name, ext, obj⟩ := by
    rw [pack_ok _ _ h]; rfl
  refine ⟨by rw [pack_ok _ _ h], ?_, ?_⟩ <;>
    · rw [ha]
      simp [load, save, PytorchModelArtifact.get, init, _file_path, h, pack]

theorem C2_save_load_round_trip_witness :
    (pack (init "net" ".pt") true objNet).2 = none ∧
    (load (init "net" ".pt") true
        (save (pack (init "net" ".pt") true objNet).1 fsEmpty "/tmp/x")
        "/tmp/x").2 = none ∧
    (load (init "net" ".pt") true
        (save (pack (init "net" ".pt") true objNet).1 fsEmpty "/tmp/x")
        "/tmp/x").1.get = objNet :=
  C2_save_load_round_trip "net" ".pt" "/tmp/x" fsEmpty objNet rfl

/-- C3: packing a non-base-type object raises `InvalidArgument` and leaves
the stored model, hence `get()`, exactly as before; more generally every
failing `pack` or `load`, whatever the reason, returns the entry state. -/
theorem C3_failure_atomicity (a : PytorchModelArtifact) (t : Bool)
    (obj obj2 : PyObj) (fs : FS) (path : String)
    (h : obj.is_torch_nn_module = false) :
    (pack a true obj).2 = some (ArtifactError.invalidArgument packOnlyMsg) ∧
    (pack a true obj).1 = a ∧
    (pack a true obj).1.get = a.get ∧
    ((pack a t obj2).1 = a ∨ (pack a t obj2).2 = none) ∧
    ((load a t fs path).1 = a ∨ (load a t fs path).2 = none) := by
  refine ⟨?_, ?_, ?_, pack_state a t obj2, load_state a t fs path⟩ <;>
    simp [pack, PytorchModelArtifact.get, h]

theorem C3_failure_atomicity_witness :
    (pack (initDefault "net") true objStr).2
      = some (ArtifactError.invalidArgument packOnlyMsg) ∧
    (pack (initDefault "net") true objStr).1 = initDefault "net" ∧
    (pack (initDefault "net") true objStr).1.get = (initDefault "net").get ∧
    ((pack (initDefault "net") false objNet).1 = initDefault "net" ∨
      (pack (initDefault "net") false objNet).2 = none) ∧
    ((load (initDefault "net") false fsEmpty "/tmp/x").1 = initDefault "net" ∨
      (load (initDefault "net") false fsEmpty "/tmp/x").2 = none) :=
  C3_failure_atomicity (initDefault "net") false objStr objNet fsEmpty
    "/tmp/x" rfl

/-- C4: when torch is not importable, `pack` and `load` both raise
`MissingDependencyException`, the artifact state is returned unchanged,
and `get()` still yields whatever was stored before the call. -/
theorem C4_missing_torch (a : PytorchModelArtifact) (obj : PyObj) (fs : FS)
    (path : String) :
    pack a false obj
      = (a, some (ArtifactError.missingDependencyException missingTorchMsg)) ∧
    load a false fs path
      = (a, some (ArtifactError.missingDependencyException missingTorchMsg)) ∧
    (pack a false obj).1.get = a.get ∧
    (load a false fs path).1.get = a.get := by
  simp [pack, load]

/-- C5 counterexample: packing a Python string, the raised
`InvalidArgument` message names the expected type but nowhere mentions the
actual type of the supplied object (neither as Python renders it nor as a
bare type name), refuting the claim that the message describes both. -/
theorem C5_counterexample :
    (pack (initDefault "net") true objStr).2
      = some (ArtifactError.invalidArgument packOnlyMsg) ∧
    strHasSub packOnlyMsg (type_repr objStr) = false ∧
    strHasSub packOnlyMsg objStr.py_type = false := by
  refine ⟨rfl, ?_, ?_⟩ <;> decide

/-- C5 amended: the `InvalidArgument` raised by `pack` on a non-base-type
object carries a fixed message describing the expected type
`torch.nn.Module`; the actual type of the supplied object is not included
(only the message raised by `load` names the actual type). -/
theorem C5_pack_message_expected_type (a : PytorchModelArtifact)
    (obj : PyObj) (h : obj.is_torch_nn_module = false) :
    (pack a true obj).2
      = some (ArtifactError.invalidArgument packOnlyMsg) ∧
    strHasSub packOnlyMsg "torch.nn.Module" = true := by
  refine ⟨?_, by decide⟩
  simp [pack, h]

theorem C5_pack_message_expected_type_witness :
    (pack (initDefault "net") true objStr).2
      = some (ArtifactError.invalidArgument packOnlyMsg) ∧
    strHasSub packOnlyMsg "torch.nn.Module" = true :=
  C5_pack_message_expected_type (initDefault "net") objStr rfl

/-- C6: in every artifact state reachable from a freshly constructed
(Empty) artifact through the operations, the model field, whenever present
(different from the initial `pyNone`), is an instance of `torch.nn.Module`.
`pack` and `load` are the only operations assigning the field; `get`,
`save` and `set_dependencies` return no artifact and assign nothing, so
reachability is generated by construction, `pack` and `load`. -/
theorem C6_reachable_invariant (a : PytorchModelArtifact)
    (h : Reachable a) : validModel a = true := by
  induction h with
  | start name file_ext => rfl
  | stepPack a t m _ ih => exact pack_validModel a t m ih
  | stepLoad a t fs p _ ih => exact load_validModel a t fs p ih

theorem C6_reachable_invariant_witness :
    validModel (PytorchModelArtifact.init "net" ".pt") = true :=
  C6_reachable_invariant _ (Reachable.start "net" ".pt")

/-- C7: an artifact named "net" with the default extension computes the
single file path "/tmp/x/net.pt" under the base directory "/tmp/x";
`save` writes the packed model exactly there and leaves every other path
untouched, and a fresh artifact with the same name and default extension
reads that same file on `load`, repopulating `get()`. -/
theorem C7_single_file_path (fs : FS) (obj : PyObj)
    (h : obj.is_torch_nn_module = true) :
    (initDefault "net")._file_path "/tmp/x" = "/tmp/x/net.pt" ∧
    save (pack (initDefault "net") true obj).1 fs "/tmp/x"
      = (fun p => if p = "/tmp/x/net.pt" then some obj else fs p) ∧
    (load (initDefault "net") true
        (save (pack (initDefault "net") true obj).1 fs "/tmp/x")
        "/tmp/x").2 = none ∧
    (load (initDefault "net") true
        (save (pack (initDefault "net") true obj).1 fs "/tmp/x")
        "/tmp/x").1.get = obj := by
  have ha : (pack (initDefault "net") true obj).1 = ⟨"net", ".pt", obj⟩ := by
    rw [pack_ok _ _ h]; rfl
  have hpath : (⟨"net", ".pt", obj⟩ : PytorchModelArtifact)._file_path
      "/tmp/x" = "/tmp/x/net.pt" := rfl
  have hfresh : (initDefault "net")._file_path "/tmp/x" = "/tmp/x/net.pt" :=
    rfl
  refine ⟨hfresh, ?_, ?_, ?_⟩
  · funext p
    rw [ha]
    simp [save, hpath]
  · rw [ha]
    simp [load, save, hpath, hfresh, h, pack]
  · rw [ha]
    simp [load, save, PytorchModelArtifact.get, hpath, hfresh, h, pack]

theorem C7_single_file_path_witness :
    (initDefault "net")._file_path "/tmp/x" = "/tmp/x/net.pt" ∧
    save (pack (initDefault "net") true objNet).1 fsEmpty "/tmp/x"
      = (fun p => if p = "/tmp/x/net.pt" then some objNet else fsEmpty p) ∧
    (load (initDefault "net") true
        (save (pack (initDefault "net") true objNet).1 fsEmpty "/tmp/x")
        "/tmp/x").2 = none ∧
    (load (initDefault "net") true
        (save (pack (initDefault "net") true objNet).1 fsEmpty "/tmp/x")
        "/tmp/x").1.get = objNet :=
  C7_single_file_path fsEmpty objNet rfl

/-- C8: when the file under the computed path deserializes to an object
that is not an instance of `torch.nn.Module`, `load` raises
`InvalidArgument` with a message that names the actual type of the
deserialized object, and returns the entry state. -/
theorem C8_load_wrong_type (a : PytorchModelArtifact) (fs : FS)
    (path : String) (m : PyObj) (hfs : fs (a._file_path path) = some m)
    (hm : m.is_torch_nn_module = false) :
    load a true fs path
      = (a, some (ArtifactError.invalidArgument (loadWrongTypeMsg m))) ∧
    strHasSub (loadWrongTypeMsg m) (type_repr m) = true := by
  constructor
  · simp [load, hfs, hm]
  · exact strHasSub_append loadWrongTypePre (type_repr m)

theorem C8_load_wrong_type_witness :
    load (initDefault "net") true (fsWith "/tmp/x/net.pt" objStr) "/tmp/x"
      = (initDefault "net",
          some (ArtifactError.invalidArgument (loadWrongTypeMsg objStr))) ∧
    strHasSub (loadWrongTypeMsg objStr) (type_repr objStr) = true :=
  C8_load_wrong_type (initDefault "net") (fsWith "/tmp/x/net.pt" objStr)
    "/tmp/x" objStr rfl rfl

/-- C9: `save` checks nothing: called on a freshly constructed artifact, in
the Empty state, it raises no presence error (its translation has no error
outcome at all) and serializes the absent value `pyNone` to the computed
file path, while `get()` on that state returns `pyNone`. -/
theorem C9_save_empty (name file_ext dst : String) (fs : FS) :
    (init name file_ext).get = pyNone ∧
    save (init name file_ext) fs dst
      ((init name file_ext)._file_path dst) = some pyNone := by
  constructor
  · rfl
  · simp [save, init]

/-- C10: `get` and `save` perform no framework-availability check: their
translations take no availability flag because their bodies never import
torch, and they return the stored model and write it to disk regardless.
Only `pack` and `load` can raise `MissingDependencyException`: with torch
importable their error outcomes are exactly `InvalidArgument` or
`FileNotFoundError` as characterised below, and the missing-dependency
error arises exactly from the failed import. -/
theorem C10_save_get_no_dependency_check (a : PytorchModelArtifact)
    (fs : FS) (dst path : String) (obj : PyObj) :
    a.get = a._model ∧
    save a fs dst (a._file_path dst) = some a._model ∧
    (pack a true obj).2
      = (if obj.is_torch_nn_module then none
         else some (ArtifactError.invalidArgument packOnlyMsg)) ∧
    (load a true fs path).2
      = (match fs (a._file_path path) with
         | none => some (ArtifactError.fileNotFoundError (a._file_path path))
         | some m =>
             if m.is_torch_nn_module then none
             else some (ArtifactError.invalidArgument (loadWrongTypeMsg m))) ∧
    (pack a false obj).2
      = some (ArtifactError.missingDependencyException missingTorchMsg) ∧
    (load a false fs path).2
      = some (ArtifactError.missingDependencyException missingTorchMsg) := by
  refine ⟨rfl, ?_, ?_, ?_, rfl, rfl⟩
  · simp [save]
  · rcases hm : obj.is_torch_nn_module with _ | _ <;> simp [pack, hm]
  · rcases hf : fs (a._file_path path) with _ | m
    · simp [load, hf]
    · rcases hm : m.is_torch_nn_module with _ | _ <;>
        simp [load, hf, hm, pack]

end Claims
